import Mathlib

/-!
Shallow embedding of the ReclameAqui paginated scraper
(src/src/crawlers/crawler_reclame_aqui.py) together with theorems
settling the behavioral claims of the specification.

The scraper is a single class with mutable fields (page, results_per_page,
keyword, type_rank, content) and a handful of methods.  We embed the
mutable object as an explicit state record threaded through the methods,
and the network as a function from requests to fetch outcomes.  Company
records are opaque pass-through values, embedded as a type parameter.
-/

namespace Crawler

/-- Log levels emitted through loguru by the scraper. -/
inductive LogLevel where
  | info
  | warning
  | error
deriving DecidableEq, Repr

/-- The optional pagination object inside the JSON envelope; the
source reads it with pagination.get("pages", 1), so the pages key
itself is optional. -/
structure PaginationInfo where
  pages : Option Int
deriving DecidableEq, Repr

/-- The decoded JSON response body (ResponseEnvelope): an optional
companies list, an optional pagination object, and a flag recording
whether the JSON object carries any further keys (needed to embed
Python dict truthiness faithfully). -/
structure Envelope (α : Type) where
  companies : Option (List α)
  pagination : Option PaginationInfo
  extraKeys : Bool
deriving DecidableEq, Repr

/-- Python truthiness of the decoded dict: an empty dict is falsy. -/
def Envelope.truthy {α : Type} (e : Envelope α) : Bool :=
  e.companies.isSome || e.pagination.isSome || e.extraKeys

/-- The scraper instance state: the fields set in __init__ of
ReclameAquiScraper. -/
structure ScraperState (α : Type) where
  page : Int
  results_per_page : Int
  keyword : String
  type_rank : String
  content : Option (Envelope α)
deriving DecidableEq, Repr

/-- The field values assigned by __init__. -/
def initState (α : Type) : ScraperState α :=
  { page := 1
    results_per_page := 50
    keyword := ""
    type_rank := "best"
    content := none }

/-- The fixed User-Agent header value from search_companies. -/
def userAgent : String :=
  "Mozilla/5.0 (Windows NT 10.0; Win64; x64) AppleWebKit/537.36 (KHTML, like Gecko) Chrome/126.0.0.0 Safari/537.36"

/-- The base of the endpoint URL used by search_companies. -/
def baseUrl : String :=
  "https://iosearch.reclameaqui.com.br/raichu-io-site-search-v1"

/-- The URL built by the f-string in search_companies. -/
def buildUrl (type_rank keyword : String) (page results_per_page : Int) : String :=
  baseUrl ++ "/segments/ranking/" ++ type_rank ++ "/" ++ keyword ++ "/"
    ++ toString page ++ "/" ++ toString results_per_page

/-- The headers dict passed to every GET in search_companies. -/
def requestHeaders : List (String × String) :=
  [("User-Agent", userAgent), ("Accept", "application/json")]

/-- One outbound HTTP request as issued by search_companies. -/
structure Request where
  url : String
  headers : List (String × String)
deriving DecidableEq, Repr

/-- The request search_companies issues for a given state. -/
def mkRequest {α : Type} (s : ScraperState α) : Request :=
  { url := buildUrl s.type_rank s.keyword s.page s.results_per_page
    headers := requestHeaders }

/-- Outcome of one driver-level GET: HTTP 200 with a decoded JSON body,
a non-200 status (after the transport layer exhausted its retries), or a
requests.RequestException. -/
inductive FetchOutcome (α : Type) where
  | success (env : Envelope α)
  | httpError (status : Int) (body : String)
  | transportError (msg : String)
deriving DecidableEq, Repr

/-- Embeds search_companies: issue the GET for the current state; on
status 200 store the decoded body in content, otherwise (non-200 or
RequestException) log and leave the state unchanged. -/
def search_companies {α : Type} (api : Request → FetchOutcome α)
    (s : ScraperState α) : ScraperState α :=
  match api (mkRequest s) with
  | FetchOutcome.success env => { s with content := some env }
  | FetchOutcome.httpError _ _ => s
  | FetchOutcome.transportError _ => s

/-- Embeds get_companies_data: if self.content is truthy return
content.get("companies", []) with an info log, else return [] with a
warning log. -/
def get_companies_data {α : Type} (s : ScraperState α) : List α × LogLevel :=
  match s.content with
  | some e =>
    if e.truthy then (e.companies.getD [], LogLevel.info)
    else ([], LogLevel.warning)
  | none => ([], LogLevel.warning)

/-- Embeds get_total_pages: if self.content is truthy and has a
pagination key return pagination.get("pages", 1) with an info log, else
return 1 with a warning log. -/
def get_total_pages {α : Type} (s : ScraperState α) : Int × LogLevel :=
  match s.content with
  | some e =>
    if e.truthy then
      match e.pagination with
      | some pg => (pg.pages.getD 1, LogLevel.info)
      | none => (1, LogLevel.warning)
    else (1, LogLevel.warning)
  | none => (1, LogLevel.warning)

/-- Embeds Python range(1, total + 1) as the list of loop pages:
[1, ..., total] when total is at least 1, empty otherwise. -/
def loopPages (total : Int) : List Int :=
  (List.range total.toNat).map (fun i : Nat => (i : Int) + 1)

/-- The observable result of one paginated_search call: the returned
list, the final instance state, and the trace of driver-level requests
issued (probe first, then one per loop iteration). -/
structure SearchRun (α : Type) where
  result : List α
  final : ScraperState α
  trace : List Request
deriving DecidableEq, Repr

/-- One iteration of the for-loop of paginated_search: set self.page,
call search_companies, extend all_companies with get_companies_data. -/
def loopStep {α : Type} (api : Request → FetchOutcome α)
    (acc : SearchRun α) (p : Int) : SearchRun α :=
  { result := acc.result
      ++ (get_companies_data (search_companies api { acc.final with page := p })).1
    final := search_companies api { acc.final with page := p }
    trace := acc.trace ++ [mkRequest { acc.final with page := p }] }

/-- Embeds paginated_search: probe fetch at the current state, read the
total page count from the (possibly updated) content, then loop over
range(1, total + 1) accumulating extracted companies. -/
def paginated_search {α : Type} (api : Request → FetchOutcome α)
    (s₀ : ScraperState α) : SearchRun α :=
  let s₁ := search_companies api s₀
  let total := (get_total_pages s₁).1
  List.foldl (loopStep api) { result := [], final := s₁, trace := [mkRequest s₀] }
    (loopPages total)

/-- Embeds start: set self.keyword, then run paginated_search. -/
def start {α : Type} (api : Request → FetchOutcome α) (keyword : String)
    (s : ScraperState α) : SearchRun α :=
  paginated_search api { s with keyword := keyword }

/-- The retry budget configured in _configure_session: Retry(total=3, ...). -/
def retry_total : Nat := 3

/-- The status_forcelist configured in _configure_session. -/
def status_forcelist : List Int := [403, 429, 500, 502, 503, 504]

/-- Whether urllib3 retries a response: its status is in the forcelist. -/
def retriableStatus (st : Int) : Bool := decide (st ∈ status_forcelist)

/-- Number of attempts the configured urllib3 Retry makes, given the
status each successive attempt would receive: attempt i is made; if its
status is in the forcelist and retry budget remains, retry, else stop.
The result counts attempts made so far plus the ones still to come. -/
def attemptCount (responses : Nat → Int) : Nat → Nat → Nat
  | i, 0 => i + 1
  | i, Nat.succ f =>
    if retriableStatus (responses i) then attemptCount responses (i + 1) f
    else i + 1

/-- Total attempts one session GET makes under the configured policy. -/
def sessionAttempts (responses : Nat → Int) : Nat :=
  attemptCount responses 0 retry_total

/-- The per-page slices a run of the pagination loop appends: starting
from a given state, for each page in the list, fetch and extract, then
continue with the updated state.  The loop's accumulated result is the
concatenation of these slices. -/
def contributions {α : Type} (api : Request → FetchOutcome α) :
    ScraperState α → List Int → List (List α)
  | _, [] => []
  | s, p :: rest =>
    (get_companies_data (search_companies api { s with page := p })).1
      :: contributions api (search_companies api { s with page := p }) rest

/-- The URL shape stated by the specification for the query builder. -/
def specUrl (base rankKind keyword : String) (page pageSize : Int) : String :=
  base ++ "/segments/ranking/" ++ rankKind ++ "/" ++ keyword ++ "/"
    ++ toString page ++ "/" ++ toString pageSize

/-- The pages the specification says the loop visits for a reported
total P: the ascending list 1..P when P is at least 1, nothing
otherwise. -/
def specPages (P : Int) : List Int :=
  if 1 ≤ P then (List.range P.toNat).map (fun i : Nat => (i : Int) + 1) else []

/-! Concrete scenario inputs used to exercise the theorems. -/

/-- A page-1 envelope reporting 2 total pages and two companies. -/
def cenvA : Envelope Nat :=
  { companies := some [0, 1], pagination := some { pages := some 2 }, extraKeys := false }

/-- An API where the page-1 request succeeds with cenvA and every other
request fails with HTTP 500: page 2's fetch fails after the probe and
loop page 1 succeeded. -/
def capiStale : Request → FetchOutcome Nat := fun r =>
  if r.url = buildUrl "best" "k" 1 50 then FetchOutcome.success cenvA
  else FetchOutcome.httpError 500 "err"

/-- An envelope reporting a total page count of 0. -/
def cenvZero : Envelope Nat :=
  { companies := some [5], pagination := some { pages := some 0 }, extraKeys := false }

/-- An API answering every request with the pages=0 envelope. -/
def capiZero : Request → FetchOutcome Nat := fun _ => FetchOutcome.success cenvZero

/-- An API answering every request with HTTP 500. -/
def capi500 : Request → FetchOutcome Nat := fun _ => FetchOutcome.httpError 500 "boom"

/-- An API failing every request at the transport level. -/
def capiTransport : Request → FetchOutcome Nat := fun _ =>
  FetchOutcome.transportError "conn"

/-- An envelope reporting 2 total pages and two companies. -/
def cenvB : Envelope Nat :=
  { companies := some [10, 11], pagination := some { pages := some 2 }, extraKeys := false }

/-- An API answering every request with cenvB. -/
def capiConst : Request → FetchOutcome Nat := fun _ => FetchOutcome.success cenvB

/-- A non-empty envelope with no companies key. -/
def cenvNoComp : Envelope Nat :=
  { companies := none, pagination := some { pages := some 3 }, extraKeys := false }

/-- A non-empty envelope with no pagination key. -/
def cenvNoPag : Envelope Nat :=
  { companies := some [1], pagination := none, extraKeys := false }

/-- An envelope whose pagination object lacks the pages key and which
has no companies key. -/
def cenvNoPages : Envelope Nat :=
  { companies := none, pagination := some { pages := none }, extraKeys := false }

/-! Basic lemmas about the embedded operations. -/

@[simp] theorem search_companies_page {α : Type} (api : Request → FetchOutcome α)
    (s : ScraperState α) : (search_companies api s).page = s.page := by
  unfold search_companies
  cases api (mkRequest s) <;> rfl

@[simp] theorem search_companies_results_per_page {α : Type}
    (api : Request → FetchOutcome α) (s : ScraperState α) :
    (search_companies api s).results_per_page = s.results_per_page := by
  unfold search_companies
  cases api (mkRequest s) <;> rfl

@[simp] theorem search_companies_keyword {α : Type} (api : Request → FetchOutcome α)
    (s : ScraperState α) : (search_companies api s).keyword = s.keyword := by
  unfold search_companies
  cases api (mkRequest s) <;> rfl

@[simp] theorem search_companies_type_rank {α : Type} (api : Request → FetchOutcome α)
    (s : ScraperState α) : (search_companies api s).type_rank = s.type_rank := by
  unfold search_companies
  cases api (mkRequest s) <;> rfl

theorem search_companies_of_success {α : Type} (api : Request → FetchOutcome α)
    (s : ScraperState α) (env : Envelope α)
    (h : api (mkRequest s) = FetchOutcome.success env) :
    search_companies api s = { s with content := some env } := by
  unfold search_companies
  rw [h]

theorem search_companies_of_fail {α : Type} (api : Request → FetchOutcome α)
    (s : ScraperState α)
    (h : ∀ env : Envelope α, api (mkRequest s) ≠ FetchOutcome.success env) :
    search_companies api s = s := by
  unfold search_companies
  cases hc : api (mkRequest s) with
  | success env => exact absurd hc (h env)
  | httpError st b => rfl
  | transportError m => rfl

theorem get_companies_data_none {α : Type} (s : ScraperState α)
    (h : s.content = none) : get_companies_data s = ([], LogLevel.warning) := by
  simp [get_companies_data, h]

theorem get_companies_data_val {α : Type} (s : ScraperState α) (e : Envelope α) :
    (get_companies_data { s with content := some e }).1 = e.companies.getD [] := by
  cases hc : e.companies with
  | none => simp [get_companies_data, hc, apply_ite]
  | some l =>
    have ht : e.truthy = true := by
      unfold Envelope.truthy
      rw [hc]
      rfl
    simp [get_companies_data, ht, hc]

theorem get_total_pages_none {α : Type} (s : ScraperState α)
    (h : s.content = none) : get_total_pages s = (1, LogLevel.warning) := by
  simp [get_total_pages, h]

theorem get_total_pages_val {α : Type} (s : ScraperState α) (e : Envelope α)
    (pg : PaginationInfo) (h : e.pagination = some pg) :
    get_total_pages { s with content := some e } = (pg.pages.getD 1, LogLevel.info) := by
  have ht : e.truthy = true := by
    unfold Envelope.truthy
    rw [h]
    simp
  simp [get_total_pages, ht, h]

@[simp] theorem loopStep_result {α : Type} (api : Request → FetchOutcome α)
    (acc : SearchRun α) (p : Int) :
    (loopStep api acc p).result
      = acc.result
        ++ (get_companies_data (search_companies api { acc.final with page := p })).1 :=
  rfl

@[simp] theorem loopStep_final {α : Type} (api : Request → FetchOutcome α)
    (acc : SearchRun α) (p : Int) :
    (loopStep api acc p).final = search_companies api { acc.final with page := p } :=
  rfl

@[simp] theorem loopStep_trace {α : Type} (api : Request → FetchOutcome α)
    (acc : SearchRun α) (p : Int) :
    (loopStep api acc p).trace = acc.trace ++ [mkRequest { acc.final with page := p }] :=
  rfl

theorem foldl_loopStep_trace {α : Type} (api : Request → FetchOutcome α)
    (pages : List Int) : ∀ acc : SearchRun α,
    (List.foldl (loopStep api) acc pages).trace
      = acc.trace ++ pages.map (fun p =>
          { url := buildUrl acc.final.type_rank acc.final.keyword p acc.final.results_per_page
            headers := requestHeaders : Request }) := by
  induction pages with
  | nil => intro acc; simp
  | cons p rest ih =>
    intro acc
    rw [List.foldl_cons, ih]
    simp [mkRequest, List.append_assoc]

theorem foldl_loopStep_result {α : Type} (api : Request → FetchOutcome α)
    (pages : List Int) : ∀ acc : SearchRun α,
    (List.foldl (loopStep api) acc pages).result
      = acc.result ++ (contributions api acc.final pages).flatten := by
  induction pages with
  | nil => intro acc; simp [contributions]
  | cons p rest ih =>
    intro acc
    rw [List.foldl_cons, ih]
    simp [contributions, List.append_assoc]

theorem foldl_loopStep_keyword {α : Type} (api : Request → FetchOutcome α)
    (pages : List Int) : ∀ acc : SearchRun α,
    (List.foldl (loopStep api) acc pages).final.keyword = acc.final.keyword := by
  induction pages with
  | nil => intro acc; rfl
  | cons p rest ih =>
    intro acc
    rw [List.foldl_cons, ih]
    simp

theorem foldl_loopStep_type_rank {α : Type} (api : Request → FetchOutcome α)
    (pages : List Int) : ∀ acc : SearchRun α,
    (List.foldl (loopStep api) acc pages).final.type_rank = acc.final.type_rank := by
  induction pages with
  | nil => intro acc; rfl
  | cons p rest ih =>
    intro acc
    rw [List.foldl_cons, ih]
    simp

theorem foldl_loopStep_results_per_page {α : Type} (api : Request → FetchOutcome α)
    (pages : List Int) : ∀ acc : SearchRun α,
    (List.foldl (loopStep api) acc pages).final.results_per_page
      = acc.final.results_per_page := by
  induction pages with
  | nil => intro acc; rfl
  | cons p rest ih =>
    intro acc
    rw [List.foldl_cons, ih]
    simp

theorem getLastD_cons_eq {α : Type} (a d : α) (l : List α) :
    (a :: l).getLastD d = l.getLastD a := by
  cases l <;> rfl

theorem foldl_loopStep_page {α : Type} (api : Request → FetchOutcome α)
    (pages : List Int) : ∀ acc : SearchRun α,
    (List.foldl (loopStep api) acc pages).final.page
      = pages.getLastD acc.final.page := by
  induction pages with
  | nil => intro acc; rfl
  | cons p rest ih =>
    intro acc
    rw [List.foldl_cons, ih, getLastD_cons_eq]
    simp

theorem loopPages_length (total : Int) : (loopPages total).length = total.toNat := by
  unfold loopPages
  rw [List.length_map, List.length_range]

theorem loopPages_nil_of_nonpos (total : Int) (h : total ≤ 0) :
    loopPages total = [] := by
  unfold loopPages
  rw [Int.toNat_of_nonpos h]
  rfl

theorem loopPages_getLastD (total : Int) (h : 1 ≤ total) (d : Int) :
    (loopPages total).getLastD d = total := by
  obtain ⟨m, hm⟩ : ∃ m, total.toNat = m + 1 := ⟨total.toNat - 1, by omega⟩
  unfold loopPages
  rw [hm, List.range_succ, List.map_append]
  have : ∀ (xs : List Int) (a d : Int), (xs ++ [a]).getLastD d = a := by
    intro xs
    induction xs with
    | nil => intro a d; rfl
    | cons x xs ihx =>
      intro a d
      rw [List.cons_append, getLastD_cons_eq, ihx]
  simp only [List.map_cons, List.map_nil]
  rw [this]
  omega

theorem specPages_eq_loopPages (P : Int) : specPages P = loopPages P := by
  unfold specPages
  split
  · rfl
  · rw [loopPages_nil_of_nonpos P (by omega)]

theorem mkRequest_congr {α β : Type} (s : ScraperState α) (t : ScraperState β)
    (h1 : s.type_rank = t.type_rank) (h2 : s.keyword = t.keyword)
    (h3 : s.page = t.page) (h4 : s.results_per_page = t.results_per_page) :
    mkRequest s = mkRequest t := by
  unfold mkRequest
  rw [h1, h2, h3, h4]

theorem paginated_search_eq {α : Type} (api : Request → FetchOutcome α)
    (s₀ : ScraperState α) :
    paginated_search api s₀
      = List.foldl (loopStep api)
          { result := [], final := search_companies api s₀, trace := [mkRequest s₀] }
          (loopPages (get_total_pages (search_companies api s₀)).1) :=
  rfl

theorem paginated_search_trace {α : Type} (api : Request → FetchOutcome α)
    (s₀ : ScraperState α) :
    (paginated_search api s₀).trace
      = mkRequest s₀
        :: (loopPages (get_total_pages (search_companies api s₀)).1).map (fun p =>
            { url := buildUrl s₀.type_rank s₀.keyword p s₀.results_per_page
              headers := requestHeaders : Request }) := by
  rw [paginated_search_eq, foldl_loopStep_trace]
  simp

theorem paginated_search_result {α : Type} (api : Request → FetchOutcome α)
    (s₀ : ScraperState α) :
    (paginated_search api s₀).result
      = (contributions api (search_companies api s₀)
          (loopPages (get_total_pages (search_companies api s₀)).1)).flatten := by
  rw [paginated_search_eq, foldl_loopStep_result]
  simp

theorem contributions_of_success {α : Type} (api : Request → FetchOutcome α)
    (envAt : Int → Envelope α) (s₀ : ScraperState α)
    (hall : ∀ p : Int,
      api (mkRequest { s₀ with page := p }) = FetchOutcome.success (envAt p))
    (pages : List Int) : ∀ s : ScraperState α,
    s.type_rank = s₀.type_rank → s.keyword = s₀.keyword →
    s.results_per_page = s₀.results_per_page →
    contributions api s pages = pages.map (fun p => (envAt p).companies.getD []) := by
  induction pages with
  | nil => intro s _ _ _; rfl
  | cons p rest ih =>
    intro s h1 h2 h3
    have hreq : mkRequest ({ s with page := p } : ScraperState α)
        = mkRequest ({ s₀ with page := p } : ScraperState α) :=
      mkRequest_congr _ _ h1 h2 rfl h3
    have hsucc : api (mkRequest ({ s with page := p } : ScraperState α))
        = FetchOutcome.success (envAt p) := by
      rw [hreq]
      exact hall p
    simp only [contributions]
    rw [search_companies_of_success api _ (envAt p) hsucc, get_companies_data_val]
    have htail := ih
      ({ ({ s with page := p } : ScraperState α) with content := some (envAt p) })
      h1 h2 h3
    rw [htail, List.map_cons]

theorem contributions_head_of_fail {α : Type} (api : Request → FetchOutcome α)
    (s : ScraperState α) (p : Int) (rest : List Int)
    (h : ∀ env : Envelope α,
      api (mkRequest { s with page := p }) ≠ FetchOutcome.success env) :
    (contributions api s (p :: rest)).head? = some (get_companies_data s).1 := by
  simp only [contributions]
  rw [search_companies_of_fail api _ h]
  rfl

theorem attemptCount_le (responses : Nat → Int) :
    ∀ fuel i : Nat, attemptCount responses i fuel ≤ i + fuel + 1 := by
  intro fuel
  induction fuel with
  | zero => intro i; simp [attemptCount]
  | succ f ih =>
    intro i
    unfold attemptCount
    split
    · have := ih (i + 1)
      omega
    · omega

theorem attemptCount_ge (responses : Nat → Int) :
    ∀ fuel i : Nat, i + 1 ≤ attemptCount responses i fuel := by
  intro fuel
  induction fuel with
  | zero => intro i; simp [attemptCount]
  | succ f ih =>
    intro i
    unfold attemptCount
    split
    · have := ih (i + 1)
      omega
    · omega

/-! Claim theorems. -/

/-- C8: the request URL is a pure function of the query fields alone
(in particular it is independent of the stored content), of the form
base/segments/ranking/rankKind/keyword/page/pageSize, and every request
carries the fixed User-Agent header and an Accept application/json
header. -/
theorem C8_query_builder {α : Type} (s : ScraperState α) :
    (mkRequest s).url
      = specUrl baseUrl s.type_rank s.keyword s.page s.results_per_page ∧
    mkRequest s = mkRequest
      { page := s.page, results_per_page := s.results_per_page, keyword := s.keyword,
        type_rank := s.type_rank, content := (none : Option (Envelope α)) } ∧
    (mkRequest s).headers = requestHeaders ∧
    ("User-Agent", userAgent) ∈ requestHeaders ∧
    ("Accept", "application/json") ∈ requestHeaders := by
  refine ⟨rfl, rfl, rfl, ?_, ?_⟩ <;> simp [requestHeaders]

/-- C9: the session is configured with a bounded retry policy of
exactly 3 total retries (hence at most 4 attempts per GET, never
indefinite), and a retry is triggered precisely when the response
status is one of 403, 429, 500, 502, 503, 504. -/
theorem C9_retry_config :
    retry_total = 3 ∧
    (∀ st : Int, retriableStatus st = true ↔
      (st = 403 ∨ st = 429 ∨ st = 500 ∨ st = 502 ∨ st = 503 ∨ st = 504)) ∧
    (∀ responses : Nat → Int, sessionAttempts responses ≤ retry_total + 1) ∧
    (∀ responses : Nat → Int,
      2 ≤ sessionAttempts responses ↔ retriableStatus (responses 0) = true) := by
  refine ⟨rfl, ?_, ?_, ?_⟩
  · intro st
    simp [retriableStatus, status_forcelist]
  · intro responses
    have h := attemptCount_le responses retry_total 0
    unfold sessionAttempts
    omega
  · intro responses
    have hunf : sessionAttempts responses
        = if retriableStatus (responses 0) = true then attemptCount responses 1 2
          else 1 := rfl
    by_cases hret : retriableStatus (responses 0) = true
    · have h2 : sessionAttempts responses = attemptCount responses 1 2 := by
        rw [hunf, if_pos hret]
      constructor
      · intro _
        exact hret
      · intro _
        rw [h2]
        exact attemptCount_ge responses 2 1
    · have h1 : sessionAttempts responses = 1 := by
        rw [hunf, if_neg hret]
      constructor
      · intro h
        rw [h1] at h
        omega
      · intro h
        exact absurd h hret

/-- C1 counterexample: with an API where page 1 succeeds (2 companies,
pagination.pages = 2) and page 2's fetch fails, the failed page 2
contributes the stale page-1 slice [0, 1], not an empty slice, and the
total ResultSet length is 4, not the 2 the claim predicts. -/
theorem C1_counterexample :
    (start capiStale "k" (initState Nat)).result = [0, 1, 0, 1] ∧
    (contributions capiStale
        (search_companies capiStale { initState Nat with keyword := "k" })
        (loopPages 2)).getD 1 [] = [0, 1] ∧
    ([0, 1] : List Nat) ≠ [] ∧
    (start capiStale "k" (initState Nat)).result.length ≠ 2 := by
  refine ⟨rfl, rfl, by decide, by decide⟩

/-- C1 amended: the ResultSet is the concatenation of the per-page
contributed slices and its length is the sum of their lengths, but the
slice a failed page contributes is the extraction from the envelope
left by the most recent successful fetch (stale records, or empty only
when no envelope is stored), not necessarily empty. -/
theorem C1_stale_contribution {α : Type} (api : Request → FetchOutcome α)
    (s₀ : ScraperState α) :
    (paginated_search api s₀).result
      = (contributions api (search_companies api s₀)
          (loopPages (get_total_pages (search_companies api s₀)).1)).flatten ∧
    (paginated_search api s₀).result.length
      = ((contributions api (search_companies api s₀)
          (loopPages (get_total_pages (search_companies api s₀)).1)).map
            List.length).sum ∧
    ∀ (s : ScraperState α) (p : Int) (rest : List Int),
      (∀ env : Envelope α,
        api (mkRequest { s with page := p }) ≠ FetchOutcome.success env) →
      (contributions api s (p :: rest)).head? = some (get_companies_data s).1 := by
  refine ⟨paginated_search_result api s₀, ?_, ?_⟩
  · rw [paginated_search_result api s₀, List.length_flatten]
  · intro s p rest h
    exact contributions_head_of_fail api s p rest h

/-- C1 witness: the amended theorem applied at the concrete stale-page
API: the run result is the concatenation of the contributed slices, and
the failed page-2 fetch from the fresh state contributes the (empty)
extraction of the absent envelope. -/
theorem C1_stale_contribution_witness :
    (paginated_search capiStale { initState Nat with keyword := "k" }).result
      = (contributions capiStale
          (search_companies capiStale { initState Nat with keyword := "k" })
          (loopPages (get_total_pages
            (search_companies capiStale { initState Nat with keyword := "k" })).1)).flatten ∧
    (contributions capiStale (initState Nat) (2 :: [3])).head?
      = some (get_companies_data (initState Nat)).1 := by
  constructor
  · exact (C1_stale_contribution capiStale { initState Nat with keyword := "k" }).1
  · refine (C1_stale_contribution capiStale { initState Nat with keyword := "k" }).2.2
      (initState Nat) 2 [3] ?_
    intro env h
    exact FetchOutcome.noConfusion
      (show FetchOutcome.httpError 500 "err" = FetchOutcome.success env from h)

/-- C2 counterexample: with an API whose probe reports
pagination.pages = 0, the driver issues only the probe request (trace
length 1, not 2) and the loop body never runs, so the page-0 count is
not clamped to 1. -/
theorem C2_counterexample :
    (start capiZero "k" (initState Nat)).trace.length = 1 ∧
    (start capiZero "k" (initState Nat)).trace.length ≠ 2 ∧
    (start capiZero "k" (initState Nat)).result = [] := by
  refine ⟨rfl, by decide, rfl⟩

/-- C2 amended: when the probe reports pagination.pages = P, the loop
visits exactly pages 1..P for P at least 1; for P at most 0 (including
the API-undefined P = 0) the loop runs zero times — the driver does not
clamp the page count. -/
theorem C2_no_clamp {α : Type} (api : Request → FetchOutcome α)
    (s₀ : ScraperState α) (env : Envelope α) (P : Int)
    (hprobe : api (mkRequest s₀) = FetchOutcome.success env)
    (hpages : env.pagination = some { pages := some P }) :
    (paginated_search api s₀).trace.drop 1
      = (specPages P).map (fun p =>
          { url := buildUrl s₀.type_rank s₀.keyword p s₀.results_per_page
            headers := requestHeaders : Request }) ∧
    (P ≤ 0 → (paginated_search api s₀).trace.drop 1 = []) ∧
    (1 ≤ P → ((paginated_search api s₀).trace.drop 1).length = P.toNat) := by
  have htot : (get_total_pages (search_companies api s₀)).1 = P := by
    rw [search_companies_of_success api s₀ env hprobe,
        get_total_pages_val _ env { pages := some P } hpages]
    rfl
  have htr := paginated_search_trace api s₀
  rw [htot] at htr
  refine ⟨?_, ?_, ?_⟩
  · rw [htr, specPages_eq_loopPages]
    rfl
  · intro hP
    rw [htr, loopPages_nil_of_nonpos P hP]
    rfl
  · intro _
    rw [htr]
    simp [loopPages_length]

/-- C2 witness: the amended theorem applied at the pages = 0 API: the
loop request list is empty. -/
theorem C2_no_clamp_witness :
    ((paginated_search capiZero { initState Nat with keyword := "k" }).trace.drop 1
      = (specPages 0).map (fun p =>
          { url := buildUrl "best" "k" p 50
            headers := requestHeaders : Request })) ∧
    ((0 : Int) ≤ 0 →
      (paginated_search capiZero { initState Nat with keyword := "k" }).trace.drop 1
        = []) ∧
    ((1 : Int) ≤ 0 →
      ((paginated_search capiZero
          { initState Nat with keyword := "k" }).trace.drop 1).length
        = (0 : Int).toNat) :=
  C2_no_clamp capiZero { initState Nat with keyword := "k" } cenvZero 0 rfl rfl

/-- C3: on a freshly constructed scraper, when the probe reports N
total pages with N at least 1, the driver issues exactly N + 1
requests: the probe at page 1 followed by the loop pages 1..N, each at
the URL with the right page number, rankKind best and pageSize 50, so
page 1 is fetched twice. -/
theorem C3_fetch_schedule {α : Type} (api : Request → FetchOutcome α)
    (K : String) (env : Envelope α) (N : Int)
    (hprobe : api (mkRequest { initState α with keyword := K })
      = FetchOutcome.success env)
    (hpages : env.pagination = some { pages := some N })
    (_hN : 1 ≤ N) :
    (start api K (initState α)).trace.length = N.toNat + 1 ∧
    (start api K (initState α)).trace
      = { url := specUrl baseUrl "best" K 1 50, headers := requestHeaders }
        :: (specPages N).map (fun p =>
            { url := specUrl baseUrl "best" K p 50
              headers := requestHeaders : Request }) := by
  have htot : (get_total_pages
      (search_companies api { initState α with keyword := K })).1 = N := by
    rw [search_companies_of_success api _ env hprobe,
        get_total_pages_val _ env { pages := some N } hpages]
    rfl
  have htr := paginated_search_trace api { initState α with keyword := K }
  rw [htot] at htr
  constructor
  · show (paginated_search api { initState α with keyword := K }).trace.length
      = N.toNat + 1
    rw [htr]
    simp [loopPages_length]
  · show (paginated_search api { initState α with keyword := K }).trace = _
    rw [htr, specPages_eq_loopPages]
    rfl

/-- C3 witness: the schedule theorem at a concrete 2-page API: 3
requests, the probe at page 1 then loop pages 1 and 2. -/
theorem C3_fetch_schedule_witness :
    (start capiConst "banks" (initState Nat)).trace.length = (2 : Int).toNat + 1 ∧
    (start capiConst "banks" (initState Nat)).trace
      = { url := specUrl baseUrl "best" "banks" 1 50, headers := requestHeaders }
        :: (specPages 2).map (fun p =>
            { url := specUrl baseUrl "best" "banks" p 50
              headers := requestHeaders : Request }) :=
  C3_fetch_schedule capiConst "banks" cenvB 2 rfl rfl (by decide)

/-- C4: when the probe fetch on a fresh scraper fails (non-200 or
transport error, no stored envelope), the total page count defaults to
1 and the loop still runs exactly once: two requests in all, both at
page 1. -/
theorem C4_probe_failure_default {α : Type} (api : Request → FetchOutcome α)
    (K : String)
    (hfail : ∀ env : Envelope α,
      api (mkRequest { initState α with keyword := K }) ≠ FetchOutcome.success env) :
    (get_total_pages (search_companies api { initState α with keyword := K })).1
      = 1 ∧
    (start api K (initState α)).trace.length = 2 ∧
    (start api K (initState α)).trace
      = [{ url := specUrl baseUrl "best" K 1 50, headers := requestHeaders },
         { url := specUrl baseUrl "best" K 1 50, headers := requestHeaders }] := by
  have hs : search_companies api { initState α with keyword := K }
      = { initState α with keyword := K } :=
    search_companies_of_fail api _ hfail
  have htot : (get_total_pages
      (search_companies api { initState α with keyword := K })).1 = 1 := by
    rw [hs, get_total_pages_none _ rfl]
  have htr := paginated_search_trace api { initState α with keyword := K }
  rw [htot] at htr
  refine ⟨htot, ?_, ?_⟩
  · show (paginated_search api { initState α with keyword := K }).trace.length = 2
    rw [htr]
    rfl
  · show (paginated_search api { initState α with keyword := K }).trace = _
    rw [htr]
    rfl

/-- C4 witness: the default theorem at an API failing every request at
the transport level. -/
theorem C4_probe_failure_default_witness :
    (get_total_pages
      (search_companies capiTransport { initState Nat with keyword := "k" })).1
      = 1 ∧
    (start capiTransport "k" (initState Nat)).trace.length = 2 ∧
    (start capiTransport "k" (initState Nat)).trace
      = [{ url := specUrl baseUrl "best" "k" 1 50, headers := requestHeaders },
         { url := specUrl baseUrl "best" "k" 1 50, headers := requestHeaders }] := by
  refine C4_probe_failure_default capiTransport "k" ?_
  intro env h
  exact FetchOutcome.noConfusion
    (show FetchOutcome.transportError "conn" = FetchOutcome.success env from h)

/-- C5: when every request yields HTTP 500, the returned ResultSet is
empty and exactly 2 driver-level fetches happen: the probe and the
single default-page loop iteration. -/
theorem C5_all_500 {α : Type} (api : Request → FetchOutcome α) (K : String)
    (body : Request → String)
    (h : ∀ r : Request, api r = FetchOutcome.httpError 500 (body r)) :
    (start api K (initState α)).result = [] ∧
    (start api K (initState α)).trace.length = 2 := by
  have hfail : ∀ (s : ScraperState α) (env : Envelope α),
      api (mkRequest s) ≠ FetchOutcome.success env := by
    intro s env hc
    rw [h (mkRequest s)] at hc
    exact FetchOutcome.noConfusion hc
  have hs : search_companies api { initState α with keyword := K }
      = { initState α with keyword := K } :=
    search_companies_of_fail api _ (hfail _)
  have htot : (get_total_pages
      (search_companies api { initState α with keyword := K })).1 = 1 := by
    rw [hs, get_total_pages_none _ rfl]
  constructor
  · show (paginated_search api { initState α with keyword := K }).result = []
    rw [paginated_search_result, htot, hs]
    have hlp : loopPages 1 = [1] := by decide
    rw [hlp]
    simp only [contributions]
    rw [search_companies_of_fail api _ (hfail _), get_companies_data_none _ rfl]
    rfl
  · show (paginated_search api { initState α with keyword := K }).trace.length = 2
    have htr := paginated_search_trace api { initState α with keyword := K }
    rw [htot] at htr
    rw [htr]
    rfl

/-- C5 witness: the all-500 theorem at the constant HTTP 500 API. -/
theorem C5_all_500_witness :
    (start capi500 "k" (initState Nat)).result = [] ∧
    (start capi500 "k" (initState Nat)).trace.length = 2 :=
  C5_all_500 capi500 "k" (fun _ => "boom") (fun _ => rfl)

/-- C6: when every page fetch succeeds, the ResultSet equals the
concatenation, in ascending page order, of each page's companies array
in its original order — no sorting, no de-duplication. -/
theorem C6_result_concat {α : Type} (api : Request → FetchOutcome α)
    (s₀ : ScraperState α) (envAt : Int → Envelope α)
    (hall : ∀ p : Int,
      api (mkRequest { s₀ with page := p }) = FetchOutcome.success (envAt p)) :
    (paginated_search api s₀).result
      = ((specPages (get_total_pages (search_companies api s₀)).1).map
          (fun p => (envAt p).companies.getD [])).flatten := by
  rw [paginated_search_result, specPages_eq_loopPages]
  rw [contributions_of_success api envAt s₀ hall
      (loopPages (get_total_pages (search_companies api s₀)).1)
      (search_companies api s₀) (by simp) (by simp) (by simp)]

/-- C6 witness: the concatenation theorem at a constant 2-page API
(every page answers with companies [10, 11]), together with the
evaluated run: the result is page 1's slice followed by page 2's. -/
theorem C6_result_concat_witness :
    ((paginated_search capiConst { initState Nat with keyword := "banks" }).result
      = ((specPages (get_total_pages
            (search_companies capiConst { initState Nat with keyword := "banks" })).1).map
          (fun p => ((fun _ : Int => cenvB) p).companies.getD [])).flatten) ∧
    (paginated_search capiConst { initState Nat with keyword := "banks" }).result
      = [10, 11, 10, 11] := by
  constructor
  · exact C6_result_concat capiConst { initState Nat with keyword := "banks" }
      (fun _ => cenvB) (fun _ => rfl)
  · rfl

/-- C7 counterexample: an envelope that is non-empty but lacks the
companies key resolves to the empty list with an info log, not the
warning log the claim asserts. -/
theorem C7_counterexample :
    get_companies_data { initState Nat with content := some cenvNoComp }
      = ([], LogLevel.info) ∧
    LogLevel.info ≠ LogLevel.warning := by
  refine ⟨rfl, by decide⟩

/-- C7 amended: extraction is total and never raises — an absent
companies field resolves to the empty record list and an absent
pagination field (or absent envelope) resolves to a default page count
of 1; the warning log occurs when the envelope is absent or empty or
the pagination key is missing, but an absent companies key inside a
non-empty envelope logs at info level, as does a pagination object
lacking the pages key. -/
theorem C7_total_defaults {α : Type} (s : ScraperState α) (e : Envelope α) :
    (s.content = none →
      get_companies_data s = ([], LogLevel.warning) ∧
      get_total_pages s = (1, LogLevel.warning)) ∧
    (e.companies = none →
      (get_companies_data { s with content := some e }).1 = []) ∧
    (e.companies = none → e.truthy = true →
      get_companies_data { s with content := some e } = ([], LogLevel.info)) ∧
    (e.pagination = none →
      get_total_pages { s with content := some e } = (1, LogLevel.warning)) ∧
    (∀ pg : PaginationInfo, e.pagination = some pg → pg.pages = none →
      get_total_pages { s with content := some e } = (1, LogLevel.info)) := by
  refine ⟨?_, ?_, ?_, ?_, ?_⟩
  · intro h
    exact ⟨get_companies_data_none s h, get_total_pages_none s h⟩
  · intro hc
    rw [get_companies_data_val, hc]
    rfl
  · intro hc ht
    simp [get_companies_data, ht, hc]
  · intro hp
    by_cases ht : e.truthy <;> simp [get_total_pages, hp, ht]
  · intro pg hp hpg
    rw [get_total_pages_val s e pg hp, hpg]
    rfl

/-- C7 witness: the totality theorem applied at concrete states — the
absent envelope, an envelope lacking companies and pages, and an
envelope lacking pagination. -/
theorem C7_total_defaults_witness :
    (get_companies_data (initState Nat) = ([], LogLevel.warning) ∧
     get_total_pages (initState Nat) = (1, LogLevel.warning)) ∧
    get_companies_data { initState Nat with content := some cenvNoPages }
      = ([], LogLevel.info) ∧
    get_total_pages { initState Nat with content := some cenvNoPag }
      = (1, LogLevel.warning) ∧
    get_total_pages { initState Nat with content := some cenvNoPages }
      = (1, LogLevel.info) := by
  refine ⟨(C7_total_defaults (initState Nat) cenvNoPages).1 rfl, ?_, ?_, ?_⟩
  · exact (C7_total_defaults (initState Nat) cenvNoPages).2.2.1 rfl rfl
  · exact (C7_total_defaults (initState Nat) cenvNoPag).2.2.2.1 rfl
  · exact (C7_total_defaults (initState Nat) cenvNoPages).2.2.2.2
      { pages := none } rfl rfl

/-- C10: paginated_search issues its probe at the instance's current
page value (no reset), after a completed search whose reported total is
N at least 1 the page field remains N, and a second start on the same
instance therefore probes page N of the new keyword rather than
page 1. -/
theorem C10_page_persistence {α : Type} (api api' : Request → FetchOutcome α)
    (K K' : String) (s₀ : ScraperState α)
    (hN : 1 ≤ (get_total_pages (search_companies api { s₀ with keyword := K })).1) :
    (paginated_search api s₀).trace.head? = some (mkRequest s₀) ∧
    (start api K s₀).final.page
      = (get_total_pages (search_companies api { s₀ with keyword := K })).1 ∧
    (start api' K' (start api K s₀).final).trace.head?
      = some { url := buildUrl (start api K s₀).final.type_rank K'
                 ((get_total_pages (search_companies api { s₀ with keyword := K })).1)
                 (start api K s₀).final.results_per_page
               headers := requestHeaders } := by
  have hhead : ∀ (apix : Request → FetchOutcome α) (sx : ScraperState α),
      (paginated_search apix sx).trace.head? = some (mkRequest sx) := by
    intro apix sx
    rw [paginated_search_trace]
    rfl
  have h2 : (start api K s₀).final.page
      = (get_total_pages (search_companies api { s₀ with keyword := K })).1 := by
    show (paginated_search api { s₀ with keyword := K }).final.page = _
    rw [paginated_search_eq, foldl_loopStep_page, loopPages_getLastD _ hN]
  refine ⟨hhead api s₀, h2, ?_⟩
  have h3 : (start api' K' (start api K s₀).final).trace.head?
      = some (mkRequest { (start api K s₀).final with keyword := K' }) :=
    hhead api' { (start api K s₀).final with keyword := K' }
  rw [h3]
  simp only [mkRequest]
  rw [h2]

/-- C10 witness: the persistence theorem at the constant 2-page API:
after a first search the page field is 2, and a second start probes
page 2 of the new keyword. -/
theorem C10_page_persistence_witness :
    (paginated_search capiConst (initState Nat)).trace.head?
      = some (mkRequest (initState Nat)) ∧
    (start capiConst "k" (initState Nat)).final.page = 2 ∧
    (start capiConst "k2" (start capiConst "k" (initState Nat)).final).trace.head?
      = some { url := buildUrl "best" "k2" 2 50, headers := requestHeaders } :=
  C10_page_persistence capiConst capiConst "k" "k2" (initState Nat) (by decide)

end Crawler
